import Mathlib

/-!
Shallow embedding of `src/server/main.py` (a FastAPI backend-for-frontend that
records Stripe purchases in a ledger and gates a composite rental-report fetch
on a recent purchase), together with theorems settling the specification
claims about it.

Conventions of the embedding:
* Python strings are Lean `String`; where Python lower-cases and compares
  (`str.lower`, substring `in`), we work on the underlying `List Char`
  because the character-level functions reduce in the kernel.
* Python `None` becomes `Option.none`; Python truthiness of an optional
  string (`if email and package`) is `pyTruthy` (false on `None` and `""`).
* Machine time `int(time.time())` is an explicit `now : Int` parameter.
* The sqlite purchases table is a `List Purchase`; `INSERT` appends.
* Exceptions raised by a handler become explicit error results.
-/

/-! ## String helpers (Python `str.lower` and substring `in`) -/

/-- Character list of a string with every character lower-cased,
mirroring Python `s.lower()` for the ASCII data this program handles. -/
def lowerChars (s : String) : List Char := s.data.map Char.toLower

/-- Check that the first list is an initial segment of the second. -/
def leadsChars : List Char → List Char → Bool
  | [], _ => true
  | _ :: _, [] => false
  | a :: as, b :: bs => a = b && leadsChars as bs

/-- Check that `n` occurs contiguously somewhere in the second list. -/
def hasSubChars (n : List Char) : List Char → Bool
  | [] => n.isEmpty
  | c :: t => leadsChars n (c :: t) || hasSubChars n t

/-- Python `needle.lower() in haystack.lower()` (case-insensitive substring). -/
def containsSubstr (needle haystack : String) : Bool :=
  hasSubChars (lowerChars needle) (lowerChars haystack)

/-- Python truthiness of an optional string: `None` and `""` are falsy. -/
def pyTruthy : Option String → Bool
  | none => false
  | some s => s ≠ ""

/-! ## Package matchers (main.py lines 25-29) -/

/-- One entry of `PACKAGE_MATCHERS`: internal package code, expected
`amount_total` in cents, and case-insensitive label keywords. -/
structure PackageMatcher where
  code : String
  amount : Int
  label_keywords : List String
deriving Repr, DecidableEq

/-- The static configuration `PACKAGE_MATCHERS` of main.py lines 25-29, in
Python dict insertion order (snapshot, investor, consult). -/
def PACKAGE_MATCHERS : List PackageMatcher :=
  [⟨"snapshot", 2900, ["Snapshot"]⟩,
   ⟨"investor", 7900, ["Investor"]⟩,
   ⟨"consult", 19900, ["Consultation", "Full"]⟩]

/-- Python `any(kw.lower() in labels.lower() for kw in cfg["label_keywords"])`
(main.py line 184). -/
def anyKeyword (m : PackageMatcher) (labels : String) : Bool :=
  m.label_keywords.any (fun kw => containsSubstr kw labels)

/-- One iteration of the matching loop of main.py lines 180-185:
the amount test assigns `package` unconditionally; the keyword test fires
only when `package` is still `None` and `labels` is truthy (non-empty). -/
def matchStep (amount_total : Option Int) (labels : String)
    (package : Option PackageMatcher) (m : PackageMatcher) : Option PackageMatcher :=
  let package := if amount_total = some m.amount then some m else package
  if package = none ∧ labels ≠ "" ∧ anyKeyword m labels then some m else package

/-- The whole matching loop of main.py lines 180-185, started with
`package = None`, scanning `PACKAGE_MATCHERS` in configuration order.
Note the loop body has no `break`. -/
def matchPackage (amount_total : Option Int) (labels : String) : Option PackageMatcher :=
  PACKAGE_MATCHERS.foldl (matchStep amount_total labels) none

/-- Modelled from the spec (§4.2), for comparison with `matchPackage`:
"for each definition in order, amount-match is attempted first, then (only
if nothing selected yet) keyword-match; first definition to produce a
non-null selection stops the search." -/
def matchFirstWinAux (amount_total : Option Int) (labels : String) :
    List PackageMatcher → Option PackageMatcher
  | [] => none
  | m :: ms =>
    if amount_total = some m.amount then some m
    else if anyKeyword m labels then some m
    else matchFirstWinAux amount_total labels ms

/-- Modelled from the spec (§4.2): the first-definition-wins matching policy
over `PACKAGE_MATCHERS`, used to compare against the code's `matchPackage`. -/
def matchPackageFirstWin (amount_total : Option Int) (labels : String) :
    Option PackageMatcher :=
  matchFirstWinAux amount_total labels PACKAGE_MATCHERS

/-- The last matcher in configuration order whose expected amount equals the
event amount (the unguarded amount assignment of line 181 makes the final
survivor of the scan the last such matcher). -/
def lastAmountMatch (amount_total : Option Int) : Option PackageMatcher :=
  PACKAGE_MATCHERS.foldl
    (fun acc m => if amount_total = some m.amount then some m else acc) none

/-- The first matcher in configuration order with a keyword hit in `labels`. -/
def firstKeywordMatch (labels : String) : Option PackageMatcher :=
  PACKAGE_MATCHERS.find? (fun m => anyKeyword m labels)

/-- The amended description of the loop of main.py lines 180-185: the last
amount-matching definition wins when any amount matches; otherwise, for
non-empty labels, the first keyword-matching definition wins. -/
def matchAmendedPolicy (amount_total : Option Int) (labels : String) :
    Option PackageMatcher :=
  match lastAmountMatch amount_total with
  | some m => some m
  | none => if labels = "" then none else firstKeywordMatch labels

/-! ## Purchase ledger (main.py lines 34-57) -/

/-- One row of the sqlite `purchases` table (main.py lines 36-41):
`email` as stored (lower-cased on insert), `package`, unix `created_at`. -/
structure Purchase where
  email : String
  package : String
  created_at : Int
deriving Repr, DecidableEq

/-- Email comparison as main.py performs it: both the stored value
(lower-cased at insert) and query values (lower-cased at query) go through
`str.lower()`; equality of the lower-cased character lists. -/
def emailsMatch (a b : String) : Prop := lowerChars a = lowerChars b

instance (a b : String) : Decidable (emailsMatch a b) := by
  unfold emailsMatch; infer_instance

/-- Lower-case a string at the character level (model of Python
`email.lower()` producing the stored string). We keep the result as a
`String` built from the lower-cased characters. -/
def lowerStr (s : String) : String := ⟨lowerChars s⟩

/-- Embedding of `record_purchase` (main.py lines 45-48): insert one row
`(email.lower(), package, int(time.time()))` into the purchases table. -/
def record_purchase (email : String) (package : String) (now : Int)
    (ledger : List Purchase) : List Purchase :=
  ledger ++ [⟨lowerStr email, package, now⟩]

/-- Embedding of `has_recent_purchase` (main.py lines 50-57): true iff some
row has `email = query.lower()`, the same package, and
`created_at >= now - days * 86400`. The query is read-only: it returns a
`Bool` and the ledger list is not part of the result. -/
def has_recent_purchase (email : String) (package : String) (days : Int)
    (now : Int) (ledger : List Purchase) : Bool :=
  ledger.any (fun r =>
    r.email = lowerStr email ∧ r.package = package ∧ r.created_at ≥ now - days * 86400)

/-! ## Stripe event and signature verification (main.py lines 156-166) -/

/-- The fields of a parsed `checkout.session` event that the handler reads:
`event["type"]`, `(session.get("customer_details") or {}).get("email")`
(`none` covers both a missing `customer_details` object and a missing
`email` key; `some ""` is an email key holding the empty string),
`session.get("amount_total")`, and `session["id"]`. -/
structure StripeEvent where
  type : String
  customerEmail : Option String
  amountTotal : Option Int
  sessionId : String
deriving Repr, DecidableEq

/-- An inbound webhook body: the raw bytes the signature is computed over,
paired with what JSON parsing of those bytes would yield (`Except.error`
when the bytes are not a well-formed event). Carrying the parse outcome as
data lets theorems quantify over every payload content, parseable or not. -/
structure RawPayload where
  bytes : List Nat
  parsed : Except String StripeEvent

/-- Modelled from the spec (§4.2 Step 1): the expected-signature computation
over the raw bytes with the shared secret. The real computation (HMAC-SHA256
inside `stripe.Webhook.construct_event`) lives in the third-party stripe
library, not in src/; the claims depend only on match versus mismatch, so it
is modelled as a concrete deterministic tag of the secret and the bytes. -/
def expectedSig (secret : String) (bytes : List Nat) : Nat :=
  ((lowerChars secret).map Char.toNat ++ bytes).foldl
    (fun h b => (h * 31 + b) % 1000000007) 7

/-- Signature validity: the `stripe-signature` header is present and equals
the tag recomputed over the raw bytes with the shared secret. A missing or
malformed header never equals the recomputed tag, so it is invalid. -/
def sigOk (secret : String) (bytes : List Nat) (sigHeader : Option Nat) : Bool :=
  sigHeader = some (expectedSig secret bytes)

/-- Embedding of `stripe.Webhook.construct_event` as called on main.py
line 161: verify the signature over the raw bytes first; only on success
parse the JSON body. Any failure (missing/invalid signature, unparseable
body) surfaces as an exception, which the handler converts to a 400. -/
def constructEvent (secret : String) (p : RawPayload) (sigHeader : Option Nat) :
    Except String StripeEvent :=
  if sigOk secret p.bytes sigHeader then p.parsed
  else Except.error "signature mismatch"

/-- Outcome of the line-item lookup on main.py lines 173-177:
`Except.ok items` is a successful `list_line_items` reply where each item
carries an optional `description`; `Except.error ()` is any raised
exception from that auxiliary call. -/
def LineItemsResult : Type := Except Unit (List (Option String))

/-- Python `" ".join([(li.get("description") or "") for li in line_items.data])`
(main.py line 175). -/
def joinLabels (items : List (Option String)) : String :=
  String.intercalate " " (items.map (fun d => d.getD ""))

/-- The combined label text after main.py lines 172-177: the joined
descriptions on success, and `""` when the auxiliary call failed. -/
def labelsOf (li : LineItemsResult) : String :=
  match li with
  | Except.ok items => joinLabels items
  | Except.error _ => ""

/-- What the webhook handler returns to the payment provider: HTTP 200 with
`{"received": True}`, or an `HTTPException` with a status code and detail. -/
inductive WebhookResult where
  | received
  | httpError (code : Nat) (detail : String)
deriving Repr, DecidableEq

/-- Embedding of the handler `stripe_webhook` (main.py lines 156-190).
Inputs: the shared signing secret, the request body and signature header,
the outcome the line-item lookup would have, the current ledger and clock.
Output: the HTTP-level result and the ledger after the request. -/
def stripe_webhook (secret : String) (p : RawPayload) (sigHeader : Option Nat)
    (li : LineItemsResult) (ledger : List Purchase) (now : Int) :
    WebhookResult × List Purchase :=
  match constructEvent secret p sigHeader with
  | Except.error e =>
    (WebhookResult.httpError 400 ("Webhook signature verification failed: " ++ e), ledger)
  | Except.ok event =>
    if event.type = "checkout.session.completed" then
      let email := event.customerEmail
      let amount_total := event.amountTotal
      let labels := labelsOf li
      let package := matchPackage amount_total labels
      if pyTruthy email ∧ package ≠ none then
        match email, package with
        | some e, some m => (WebhookResult.received, record_purchase e m.code now ledger)
        | _, _ => (WebhookResult.received, ledger)
      else (WebhookResult.received, ledger)
    else (WebhookResult.received, ledger)

/-! ## Full report endpoint (main.py lines 193-216) -/

/-- The request model `FullReportReq` (main.py lines 70-75). The `lat`/`lng`
coordinates are only passed through to upstream query parameters, never
computed with, so they are embedded as integers. -/
structure FullReportReq where
  email : String
  package : String
  address : String
  lat : Int
  lng : Int
deriving Repr, DecidableEq

/-- An upstream HTTP response: status code and JSON body (kept abstract). -/
structure UpstreamResp where
  status : Nat
  body : String
deriving Repr, DecidableEq

/-- What the full-report handler returns: the combined
`{"estimate": ..., "comps": ...}` payload, or an `HTTPException`. -/
inductive ReportResult where
  | ok (estimate : String) (comps : String)
  | httpError (code : Nat) (detail : String)
deriving Repr, DecidableEq

/-- Evaluation of `await httpx.AsyncClient.gather(est_task, comps_task)`
(main.py line 208). The `httpx.AsyncClient` class has no attribute
`gather` (the author meant `asyncio.gather`; the appended `# type: ignore`
silences the type checker about exactly this), so the attribute lookup
raises `AttributeError` before either pending request coroutine is awaited,
whatever the two upstream services would have answered. -/
def asyncClientGather (_estTask _compsTask : UpstreamResp) :
    Except String (UpstreamResp × UpstreamResp) :=
  Except.error "AttributeError: type object AsyncClient has no attribute gather"

/-- Embedding of the handler `full_report` (main.py lines 193-216).
`est`/`comps` are the responses the two RentCast endpoints would give.
The second component counts upstream HTTP requests actually sent: the
`client.get(...)` calls on lines 205-206 only build coroutines, which are
sent when awaited; an unhandled exception in the handler becomes FastAPI's
generic 500 response. -/
def full_report (req : FullReportReq) (ledger : List Purchase) (now : Int)
    (est comps : UpstreamResp) : ReportResult × Nat :=
  if ¬ has_recent_purchase req.email req.package 30 now ledger then
    (ReportResult.httpError 402 "Purchase not found yet", 0)
  else
    match asyncClientGather est comps with
    | Except.error _ => (ReportResult.httpError 500 "Internal Server Error", 0)
    | Except.ok (est_res, comps_res) =>
      if est_res.status ≥ 400 then (ReportResult.httpError 500 "RentCast estimate failed", 2)
      else if comps_res.status ≥ 400 then (ReportResult.httpError 500 "RentCast comps failed", 2)
      else (ReportResult.ok est_res.body comps_res.body, 2)

/-- Modelled from the spec (§4.4), for comparison with the code: the intended
join of the two upstream calls, awaiting both responses. Substituting it for
`asyncClientGather` in `full_report` gives the aggregator the spec
describes. -/
def intendedGather (estTask compsTask : UpstreamResp) :
    Except String (UpstreamResp × UpstreamResp) :=
  Except.ok (estTask, compsTask)

/-- The handler `full_report` with line 208 replaced by the intended join of
the two upstream responses; otherwise identical control flow. -/
def full_report_intended (req : FullReportReq) (ledger : List Purchase) (now : Int)
    (est comps : UpstreamResp) : ReportResult × Nat :=
  if ¬ has_recent_purchase req.email req.package 30 now ledger then
    (ReportResult.httpError 402 "Purchase not found yet", 0)
  else
    match intendedGather est comps with
    | Except.error _ => (ReportResult.httpError 500 "Internal Server Error", 0)
    | Except.ok (est_res, comps_res) =>
      if est_res.status ≥ 400 then (ReportResult.httpError 500 "RentCast estimate failed", 2)
      else if comps_res.status ≥ 400 then (ReportResult.httpError 500 "RentCast comps failed", 2)
      else (ReportResult.ok est_res.body comps_res.body, 2)

/-! ## Startup environment check (main.py lines 12-19) -/

/-- The four required credentials read from the environment at import time
(main.py lines 12-15): `os.getenv` yields `None` when a variable is absent. -/
structure Env where
  GOOGLE_MAPS_API_KEY : Option String
  RENTCAST_API_KEY : Option String
  STRIPE_SECRET_KEY : Option String
  STRIPE_WEBHOOK_SECRET : Option String

/-- Embedding of the module-level check on main.py lines 18-19: if any of
the four credentials is falsy (absent or empty), a `RuntimeError` is raised
at import, so the FastAPI `app` object is never constructed and the process
serves no traffic. `Except.error` is that fatal raise; `Except.ok` means
startup proceeds to build the app. -/
def startupCheck (env : Env) : Except String Unit :=
  if pyTruthy env.GOOGLE_MAPS_API_KEY ∧ pyTruthy env.RENTCAST_API_KEY ∧
      pyTruthy env.STRIPE_SECRET_KEY ∧ pyTruthy env.STRIPE_WEBHOOK_SECRET then
    Except.ok ()
  else
    Except.error "Missing required env vars: GOOGLE_MAPS_API_KEY, RENTCAST_API_KEY, STRIPE_SECRET_KEY, STRIPE_WEBHOOK_SECRET"

/-! ## Shared lemmas -/

/-- The code's matching loop and the first-definition-wins policy of §4.2
select the same set of events (they can disagree on which package they
select, but never on whether some package is selected). -/
theorem matchExistsAgree (amount_total : Option Int) (labels : String) :
    (matchPackage amount_total labels).isSome
      = (matchPackageFirstWin amount_total labels).isSome := by
  by_cases hl : labels = ""
  · subst hl
    by_cases h29 : amount_total = some 2900 <;>
    by_cases h79 : amount_total = some 7900 <;>
    by_cases h19 : amount_total = some 19900 <;>
    simp_all [matchPackage, matchPackageFirstWin, matchFirstWinAux,
      PACKAGE_MATCHERS, matchStep, List.foldl] <;>
    decide
  · by_cases h29 : amount_total = some 2900 <;>
    by_cases h79 : amount_total = some 7900 <;>
    by_cases h19 : amount_total = some 19900 <;>
    by_cases k1 : anyKeyword ⟨"snapshot", 2900, ["Snapshot"]⟩ labels = true <;>
    by_cases k2 : anyKeyword ⟨"investor", 7900, ["Investor"]⟩ labels = true <;>
    by_cases k3 : anyKeyword ⟨"consult", 19900, ["Consultation", "Full"]⟩ labels = true <;>
    simp_all [matchPackage, matchPackageFirstWin, matchFirstWinAux,
      PACKAGE_MATCHERS, matchStep, List.foldl]

/-- Appending a row always changes the ledger list. -/
theorem record_purchase_ne (email package : String) (now : Int) (L : List Purchase) :
    record_purchase email package now L ≠ L := by
  intro h
  have := congrArg List.length h
  simp [record_purchase] at this

/-! ## C1: package-matching order -/

/-- C1, counterexample: for the event `amount_total = 7900` with combined
label text `"Snapshot"`, the first definition in configuration order
(snapshot) already produces a selection on its turn of the scan, yet the
final selection of the code's loop is the later definition investor — a
later definition's amount match overwrote the selection, so the first
definition to produce a selection does not end the search. The spec's
first-definition-wins policy would have selected snapshot. -/
theorem C1_counterexample :
    matchStep (some 7900) "Snapshot" none ⟨"snapshot", 2900, ["Snapshot"]⟩
        = some ⟨"snapshot", 2900, ["Snapshot"]⟩
    ∧ matchPackage (some 7900) "Snapshot" = some ⟨"investor", 7900, ["Investor"]⟩
    ∧ matchPackageFirstWin (some 7900) "Snapshot"
        = some ⟨"snapshot", 2900, ["Snapshot"]⟩ := by
  decide

/-- C1, amended: the loop scans every definition in configuration order
with no break; an amount match sets the selection unconditionally
(overwriting any earlier selection) while a keyword match fires only when
nothing is selected yet and the label text is non-empty. Hence the final
selection is the last definition in configuration order whose expected
amount equals the event amount or, when no amount matches, the first
definition with a keyword hit in the (non-empty) combined label text. -/
theorem C1_matching_policy (amount_total : Option Int) (labels : String) :
    matchPackage amount_total labels = matchAmendedPolicy amount_total labels := by
  by_cases hl : labels = ""
  · subst hl
    by_cases h29 : amount_total = some 2900 <;>
    by_cases h79 : amount_total = some 7900 <;>
    by_cases h19 : amount_total = some 19900 <;>
    simp_all [matchPackage, matchAmendedPolicy, lastAmountMatch, firstKeywordMatch,
      PACKAGE_MATCHERS, matchStep, List.foldl, List.find?]
  · by_cases h29 : amount_total = some 2900 <;>
    by_cases h79 : amount_total = some 7900 <;>
    by_cases h19 : amount_total = some 19900 <;>
    by_cases k1 : anyKeyword ⟨"snapshot", 2900, ["Snapshot"]⟩ labels = true <;>
    by_cases k2 : anyKeyword ⟨"investor", 7900, ["Investor"]⟩ labels = true <;>
    by_cases k3 : anyKeyword ⟨"consult", 19900, ["Consultation", "Full"]⟩ labels = true <;>
    simp_all [matchPackage, matchAmendedPolicy, lastAmountMatch, firstKeywordMatch,
      PACKAGE_MATCHERS, matchStep, List.foldl, List.find?]

/-! ## C2: ledger-write invariant -/

/-- C2: the webhook writes a `PurchaseRecord` to the ledger if and only if
the inbound event passed signature verification (and parsed, so it has
fields at all), has type `checkout.session.completed`, carries a truthy
(present, non-empty) customer email, and the matching policy selects a
package; the §4.2 policy over `PACKAGE_MATCHERS` selects at most one
definition, so a selection is exactly a match with exactly one definition.
In every other case the ledger is unchanged. -/
theorem C2_write_iff (secret : String) (p : RawPayload) (sig : Option Nat)
    (li : LineItemsResult) (L : List Purchase) (now : Int) :
    (stripe_webhook secret p sig li L now).2 ≠ L ↔
      ∃ ev, constructEvent secret p sig = Except.ok ev
        ∧ ev.type = "checkout.session.completed"
        ∧ pyTruthy ev.customerEmail = true
        ∧ (matchPackageFirstWin ev.amountTotal (labelsOf li)).isSome = true := by
  cases hc : constructEvent secret p sig with
  | error e => simp [stripe_webhook, hc]
  | ok ev =>
    by_cases ht : ev.type = "checkout.session.completed"
    · by_cases he : pyTruthy ev.customerEmail = true
      · cases hm : matchPackage ev.amountTotal (labelsOf li) with
        | none =>
          have hfw : (matchPackageFirstWin ev.amountTotal (labelsOf li)).isSome = false := by
            rw [← matchExistsAgree, hm]; rfl
          simp [stripe_webhook, hc, ht, he, hm, hfw]
        | some m =>
          have hfw : (matchPackageFirstWin ev.amountTotal (labelsOf li)).isSome = true := by
            rw [← matchExistsAgree, hm]; rfl
          cases hee : ev.customerEmail with
          | none => rw [hee] at he; simp [pyTruthy] at he
          | some e =>
            rw [hee] at he
            simp [stripe_webhook, hc, ht, he, hm, hfw, hee, record_purchase_ne]
      · simp [stripe_webhook, hc, ht, he]
    · simp [stripe_webhook, hc, ht]

/-! ## Further shared lemmas -/

/-- With empty label text the keyword branch of the loop never fires, so the
selection is exactly the last amount match (amount-only matching). -/
theorem matchPackage_amount_only (a : Option Int) :
    matchPackage a "" = lastAmountMatch a := by
  by_cases h29 : a = some 2900 <;>
  by_cases h79 : a = some 7900 <;>
  by_cases h19 : a = some 19900 <;>
  simp_all [matchPackage, lastAmountMatch, PACKAGE_MATCHERS, matchStep, List.foldl]

/-- Whenever `construct_event` succeeds the handler acknowledges receipt
with `{"received": True}`, whatever the event contains. -/
theorem webhook_ack (secret : String) (p : RawPayload) (sig : Option Nat)
    (li : LineItemsResult) (L : List Purchase) (now : Int) (ev : StripeEvent)
    (h : constructEvent secret p sig = Except.ok ev) :
    (stripe_webhook secret p sig li L now).1 = WebhookResult.received := by
  unfold stripe_webhook
  rw [h]
  dsimp only
  split <;> try rfl
  split <;> try rfl
  split <;> rfl

/-! ## C3: invalid signature -/

/-- C3: for every request whose signature header does not verify against
the raw body (missing, malformed or mismatched), the handler returns the
400 `HTTPException` of main.py line 163 and leaves the ledger untouched,
regardless of the payload content: the statement quantifies over every
parse outcome `p.parsed` (well-formed or not), so the result is decided by
signature verification alone, before any JSON content is consulted. -/
theorem C3_invalid_signature (secret : String) (p : RawPayload) (sig : Option Nat)
    (li : LineItemsResult) (L : List Purchase) (now : Int)
    (h : sigOk secret p.bytes sig = false) :
    stripe_webhook secret p sig li L now =
      (WebhookResult.httpError 400 "Webhook signature verification failed: signature mismatch", L) := by
  simp [stripe_webhook, constructEvent, h]

/-- Concrete instance of `C3_invalid_signature`: a missing signature header
on a body that would otherwise be a fully matching completed checkout. -/
theorem C3_witness :
    sigOk "whsec" [104, 105] none = false
    ∧ stripe_webhook "whsec"
        ⟨[104, 105], Except.ok ⟨"checkout.session.completed", some "buyer@example.com", some 2900, "cs_1"⟩⟩
        none (Except.ok [some "Snapshot Report"]) [] 0
      = (WebhookResult.httpError 400 "Webhook signature verification failed: signature mismatch", []) :=
  ⟨by decide,
   C3_invalid_signature "whsec"
     ⟨[104, 105], Except.ok ⟨"checkout.session.completed", some "buyer@example.com", some 2900, "cs_1"⟩⟩
     none (Except.ok [some "Snapshot Report"]) [] 0 (by decide)⟩

/-! ## C4: entitlement gate -/

/-- C4: the full-report handler answers with the distinct 402
"Purchase not found yet" denial — and issues zero upstream requests — if
and only if the ledger has no purchase for the identity and package within
the last 30 days; with a matching recent purchase the gate lets the
request past the 402 check (main.py lines 196-197 run before any upstream
client work). -/
theorem C4_entitlement_gate (req : FullReportReq) (L : List Purchase) (now : Int)
    (est comps : UpstreamResp) :
    full_report req L now est comps = (ReportResult.httpError 402 "Purchase not found yet", 0)
      ↔ has_recent_purchase req.email req.package 30 now L = false := by
  by_cases h : has_recent_purchase req.email req.package 30 now L
  · simp [full_report, h, asyncClientGather]
  · simp [full_report, h, asyncClientGather]

/-! ## C5: ledger query -/

/-- C5: `has_recent_purchase` is true iff at least one ledger row matches
the queried identity (compared through lower-casing, hence
case-insensitively) and package with `created_at >= now - days * 86400`;
being a pure function of the ledger it modifies nothing. It is true
immediately after `record_purchase` of the same identity (up to case) and
package at the same instant, and false once the clock has advanced past
the append time plus 30 days. -/
theorem C5_exists_within (e E p : String) (d t now : Int) (L : List Purchase) :
    (has_recent_purchase e p d now L = true ↔
        ∃ r ∈ L, r.email = lowerStr e ∧ r.package = p ∧ r.created_at ≥ now - d * 86400)
    ∧ (emailsMatch e E → has_recent_purchase e p 30 t (record_purchase E p t L) = true)
    ∧ (now > t + 30 * 86400 →
        has_recent_purchase e p 30 now (record_purchase e p t []) = false) := by
  refine ⟨?_, ?_, ?_⟩
  · simp [has_recent_purchase]
  · intro hm
    have hE : lowerStr E = lowerStr e := by
      unfold emailsMatch at hm
      unfold lowerStr
      rw [hm]
    simp [has_recent_purchase, record_purchase, hE]
  · intro hnow
    simp [has_recent_purchase, record_purchase]
    omega

/-- Concrete instance of `C5_exists_within`: a query in a different letter
case succeeds right after the append, and fails one second past 30 days. -/
theorem C5_witness :
    (emailsMatch "User@Example.COM" "user@example.com"
      ∧ has_recent_purchase "User@Example.COM" "snapshot" 30 100
          (record_purchase "user@example.com" "snapshot" 100 []) = true)
    ∧ ((2592101 : Int) > 100 + 30 * 86400
      ∧ has_recent_purchase "User@Example.COM" "snapshot" 30 2592101
          (record_purchase "User@Example.COM" "snapshot" 100 []) = false) :=
  ⟨⟨by decide,
    (C5_exists_within "User@Example.COM" "user@example.com" "snapshot" 30 100 100 []).2.1
      (by decide)⟩,
   ⟨by decide,
    (C5_exists_within "User@Example.COM" "user@example.com" "snapshot" 30 100 2592101 []).2.2
      (by decide)⟩⟩

/-! ## C6: aggregator failure handling -/

/-- C6: at a failing input — an entitled request whose comps upstream would
answer 500 while the estimate upstream answers 200 — the code as written
returns FastAPI's generic 500 "Internal Server Error" (the
`httpx.AsyncClient.gather` attribute lookup on main.py line 208 raises
`AttributeError` before the per-leg status checks can run), not an error
identifying which leg failed; with line 208 replaced by the intended join
of the two responses, the same input produces the leg-identifying
"RentCast comps failed" error the spec describes. In neither case is a
partial result returned. -/
theorem C6_gather_failure :
    full_report ⟨"user@example.com", "snapshot", "1 Main St", 37, 78⟩
        [⟨"user@example.com", "snapshot", 1000⟩] 1000
        ⟨200, "estimate-payload"⟩ ⟨500, "upstream error"⟩
      = (ReportResult.httpError 500 "Internal Server Error", 0)
    ∧ full_report_intended ⟨"user@example.com", "snapshot", "1 Main St", 37, 78⟩
        [⟨"user@example.com", "snapshot", 1000⟩] 1000
        ⟨200, "estimate-payload"⟩ ⟨500, "upstream error"⟩
      = (ReportResult.httpError 500 "RentCast comps failed", 2) := by
  decide

/-! ## C7: irrelevant event types -/

/-- C7: for every signature-valid event whose type is anything other than
`checkout.session.completed`, the handler appends no record, raises no
error, and acknowledges receipt with `{"received": True}`. -/
theorem C7_irrelevant_type (secret : String) (p : RawPayload) (sig : Option Nat)
    (li : LineItemsResult) (L : List Purchase) (now : Int) (ev : StripeEvent)
    (h1 : constructEvent secret p sig = Except.ok ev)
    (h2 : ev.type ≠ "checkout.session.completed") :
    stripe_webhook secret p sig li L now = (WebhookResult.received, L) := by
  simp [stripe_webhook, h1, h2]

/-- Concrete instance of `C7_irrelevant_type`: a correctly signed
`payment_intent.succeeded` event is acknowledged and writes nothing. -/
theorem C7_witness :
    constructEvent "whsec"
        ⟨[1, 2, 3], Except.ok ⟨"payment_intent.succeeded", some "buyer@example.com", some 2900, "cs_1"⟩⟩
        (some (expectedSig "whsec" [1, 2, 3]))
      = Except.ok ⟨"payment_intent.succeeded", some "buyer@example.com", some 2900, "cs_1"⟩
    ∧ stripe_webhook "whsec"
        ⟨[1, 2, 3], Except.ok ⟨"payment_intent.succeeded", some "buyer@example.com", some 2900, "cs_1"⟩⟩
        (some (expectedSig "whsec" [1, 2, 3])) (Except.ok [some "Snapshot Report"]) [] 0
      = (WebhookResult.received, []) :=
  ⟨rfl,
   C7_irrelevant_type "whsec"
     ⟨[1, 2, 3], Except.ok ⟨"payment_intent.succeeded", some "buyer@example.com", some 2900, "cs_1"⟩⟩
     (some (expectedSig "whsec" [1, 2, 3])) (Except.ok [some "Snapshot Report"]) [] 0
     ⟨"payment_intent.succeeded", some "buyer@example.com", some 2900, "cs_1"⟩
     rfl (by decide)⟩

/-! ## C8: best-effort line-item lookup -/

/-- C8: a failed line-item lookup is handled exactly like an empty item
list — the combined label text becomes `""` in both cases, so the whole
handler outcome (result and ledger) coincides; with empty label text the
matching is amount-only (`lastAmountMatch`); and whenever the event is
signature-valid the handler still acknowledges receipt, so the auxiliary
failure never fails the event. -/
theorem C8_line_items_best_effort (secret : String) (p : RawPayload) (sig : Option Nat)
    (L : List Purchase) (now : Int) :
    stripe_webhook secret p sig (Except.error ()) L now
        = stripe_webhook secret p sig (Except.ok []) L now
    ∧ (∀ a : Option Int, matchPackage a (labelsOf (Except.error ())) = lastAmountMatch a)
    ∧ (∀ ev, constructEvent secret p sig = Except.ok ev →
        (stripe_webhook secret p sig (Except.error ()) L now).1 = WebhookResult.received) := by
  refine ⟨?_, ?_, ?_⟩
  · cases hc : constructEvent secret p sig with
    | error e => simp [stripe_webhook, hc]
    | ok ev =>
      have hi : String.intercalate " " ([] : List String) = "" := rfl
      simp [stripe_webhook, hc, labelsOf, joinLabels, hi]
  · intro a
    exact matchPackage_amount_only a
  · intro ev h
    exact webhook_ack secret p sig (Except.error ()) L now ev h

/-- Concrete instance of `C8_line_items_best_effort`: a signed completed
checkout whose line-item lookup raised behaves exactly as with an empty
item list. -/
theorem C8_witness :
    constructEvent "whsec"
        ⟨[9, 9], Except.ok ⟨"checkout.session.completed", some "buyer@example.com", some 7900, "cs_2"⟩⟩
        (some (expectedSig "whsec" [9, 9]))
      = Except.ok ⟨"checkout.session.completed", some "buyer@example.com", some 7900, "cs_2"⟩
    ∧ stripe_webhook "whsec"
        ⟨[9, 9], Except.ok ⟨"checkout.session.completed", some "buyer@example.com", some 7900, "cs_2"⟩⟩
        (some (expectedSig "whsec" [9, 9])) (Except.error ()) [] 0
      = stripe_webhook "whsec"
        ⟨[9, 9], Except.ok ⟨"checkout.session.completed", some "buyer@example.com", some 7900, "cs_2"⟩⟩
        (some (expectedSig "whsec" [9, 9])) (Except.ok []) [] 0 :=
  ⟨rfl,
   (C8_line_items_best_effort "whsec"
     ⟨[9, 9], Except.ok ⟨"checkout.session.completed", some "buyer@example.com", some 7900, "cs_2"⟩⟩
     (some (expectedSig "whsec" [9, 9])) [] 0).1⟩

/-! ## C9: startup configuration check -/

/-- C9: if any of the four required credentials is absent from the
environment at import time, the module-level check of main.py lines 18-19
raises `RuntimeError`, so startup is fatal and the app never begins
serving traffic. -/
theorem C9_startup_fatal (env : Env)
    (h : env.GOOGLE_MAPS_API_KEY = none ∨ env.RENTCAST_API_KEY = none
       ∨ env.STRIPE_SECRET_KEY = none ∨ env.STRIPE_WEBHOOK_SECRET = none) :
    startupCheck env = Except.error "Missing required env vars: GOOGLE_MAPS_API_KEY, RENTCAST_API_KEY, STRIPE_SECRET_KEY, STRIPE_WEBHOOK_SECRET" := by
  rcases h with h | h | h | h <;> simp [startupCheck, h, pyTruthy]

/-- Concrete instance of `C9_startup_fatal`: a missing mapping key is
fatal even with the other three credentials present. -/
theorem C9_witness :
    (Env.mk none (some "rc-key") (some "sk-key") (some "wh-secret")).GOOGLE_MAPS_API_KEY = none
    ∧ startupCheck ⟨none, some "rc-key", some "sk-key", some "wh-secret"⟩
      = Except.error "Missing required env vars: GOOGLE_MAPS_API_KEY, RENTCAST_API_KEY, STRIPE_SECRET_KEY, STRIPE_WEBHOOK_SECRET" :=
  ⟨rfl, C9_startup_fatal ⟨none, some "rc-key", some "sk-key", some "wh-secret"⟩ (Or.inl rfl)⟩

/-! ## C10: empty-string email -/

/-- C10: a signature-valid `checkout.session.completed` event whose
customer-details email is present but the empty string is handled like an
absent identity: the `if email and package` truthiness test of main.py
line 187 is false on `""`, so no record is appended, no error is raised,
and the event is acknowledged as received. -/
theorem C10_empty_email (secret : String) (p : RawPayload) (sig : Option Nat)
    (li : LineItemsResult) (L : List Purchase) (now : Int) (ev : StripeEvent)
    (h1 : constructEvent secret p sig = Except.ok ev)
    (h2 : ev.type = "checkout.session.completed")
    (h3 : ev.customerEmail = some "") :
    stripe_webhook secret p sig li L now = (WebhookResult.received, L) := by
  simp [stripe_webhook, h1, h2, h3, pyTruthy]

/-- Concrete instance of `C10_empty_email`: a correctly signed completed
checkout with `email = ""` and a matching amount is acknowledged and
writes nothing. -/
theorem C10_witness :
    constructEvent "whsec"
        ⟨[5], Except.ok ⟨"checkout.session.completed", some "", some 2900, "cs_3"⟩⟩
        (some (expectedSig "whsec" [5]))
      = Except.ok ⟨"checkout.session.completed", some "", some 2900, "cs_3"⟩
    ∧ stripe_webhook "whsec"
        ⟨[5], Except.ok ⟨"checkout.session.completed", some "", some 2900, "cs_3"⟩⟩
        (some (expectedSig "whsec" [5])) (Except.ok [some "Snapshot Report"]) [] 0
      = (WebhookResult.received, []) :=
  ⟨rfl,
   C10_empty_email "whsec"
     ⟨[5], Except.ok ⟨"checkout.session.completed", some "", some 2900, "cs_3"⟩⟩
     (some (expectedSig "whsec" [5])) (Except.ok [some "Snapshot Report"]) [] 0
     ⟨"checkout.session.completed", some "", some 2900, "cs_3"⟩
     rfl rfl rfl⟩
